import Mathlib

/-!
Shallow embedding of the metrics-normalization and field-mapping core of the
map-google-ads repository (src/normalization/metrics.ts and
src/normalization/field-mapper.ts).

JavaScript numbers are modelled as rationals (ℚ); the non-finite doubles NaN
and Infinity are outside the model, so the isNaN checks of the source appear
as the `none` case of the parsers.  JavaScript `string | null` values are
modelled as `Option String` (`none` = null); a field that may be absent
(`undefined`) is `Option` of its value type, or carries `JSVal.undef`.
-/

/-- Runtime value of a field whose TypeScript type is
`number | string | undefined` (a caller may also pass `null`). -/
inductive JSVal where
  | undef : JSVal
  | nullv : JSVal
  | num : ℚ → JSVal
  | str : String → JSVal
  deriving DecidableEq

/-- Whitespace skipped by the JavaScript numeric parsers. -/
def jsWhitespace (c : Char) : Bool :=
  c == ' ' || c == '\t' || c == '\n' || c == '\r'

/-- Value of a list of decimal digit characters. -/
def digitsToNat (ds : List Char) : ℕ :=
  ds.foldl (fun a c => 10 * a + (c.toNat - 48)) 0

/-- Strip one optional leading sign; `true` means negative. -/
def splitSign : List Char → Bool × List Char
  | '-' :: cs => (true, cs)
  | '+' :: cs => (false, cs)
  | cs => (false, cs)

/-- Model of JavaScript `parseInt(s, 10)`: skip leading whitespace, one
optional sign, then the longest prefix of decimal digits; `none` (NaN) when
that prefix is empty. -/
def parseIntJS (s : String) : Option ℤ :=
  let cs := s.toList.dropWhile jsWhitespace
  let p := splitSign cs
  let ds := p.2.takeWhile Char.isDigit
  if ds.isEmpty then none
  else some ((if p.1 then -1 else 1) * (digitsToNat ds : ℤ))

/-- Exponent part of a JavaScript float literal: an optional sign and digits;
a malformed exponent contributes a factor of 10^0, as in `parseFloat`. -/
def readExponent (cs : List Char) : ℤ :=
  let p := splitSign cs
  let ds := p.2.takeWhile Char.isDigit
  if ds.isEmpty then 0
  else (if p.1 then -1 else 1) * (digitsToNat ds : ℤ)

/-- Model of JavaScript `parseFloat(s)` on finite decimal literals: skip
leading whitespace, one optional sign, integer digits, an optional fraction
and an optional exponent; `none` (NaN) when no digit is read.  The literal
`Infinity`, which is not a finite number, is outside the model. -/
def parseFloatJS (s : String) : Option ℚ :=
  let cs := s.toList.dropWhile jsWhitespace
  let p := splitSign cs
  let intDs := p.2.takeWhile Char.isDigit
  let rest := p.2.drop intDs.length
  let fracDs := match rest with
    | '.' :: r => r.takeWhile Char.isDigit
    | _ => []
  let rest2 := match rest with
    | '.' :: r => r.drop fracDs.length
    | _ => rest
  if intDs.isEmpty && fracDs.isEmpty then none
  else
    let mantissa : ℚ := (digitsToNat intDs : ℚ) + (digitsToNat fracDs : ℚ) / (10 : ℚ) ^ fracDs.length
    let e : ℤ := match rest2 with
      | 'e' :: r => readExponent r
      | 'E' :: r => readExponent r
      | _ => 0
    some ((if p.1 then -1 else 1) * (mantissa * (10 : ℚ) ^ e))

/-- metrics.ts `microsToDecimal`: undefined/null give 0, a string is parsed
with `parseInt(·, 10)` and NaN gives 0, otherwise the value divided by
1,000,000. -/
def microsToDecimal (micros : JSVal) : ℚ :=
  match micros with
  | .undef => 0
  | .nullv => 0
  | .str s =>
      match parseIntJS s with
      | none => 0
      | some v => (v : ℚ) / 1000000
  | .num v => v / 1000000

/-- metrics.ts `toNumber`: undefined/null give 0, a string is parsed with
`parseFloat` and NaN gives 0, otherwise the number itself. -/
def toNumber (value : JSVal) : ℚ :=
  match value with
  | .undef => 0
  | .nullv => 0
  | .str s =>
      match parseFloatJS s with
      | none => 0
      | some v => v
  | .num v => v

/-- metrics.ts `calculateCTR`: clicks / impressions, zero-guarded. -/
def calculateCTR (clicks impressions : ℚ) : ℚ :=
  if impressions = 0 then 0 else clicks / impressions

/-- metrics.ts `calculateCPC`: spend / clicks, zero-guarded. -/
def calculateCPC (spend clicks : ℚ) : ℚ :=
  if clicks = 0 then 0 else spend / clicks

/-- metrics.ts `calculateCPM`: (spend * 1000) / impressions, zero-guarded. -/
def calculateCPM (spend impressions : ℚ) : ℚ :=
  if impressions = 0 then 0 else (spend * 1000) / impressions

/-- metrics.ts `calculateCPA`: spend / conversions, zero-guarded. -/
def calculateCPA (spend conversions : ℚ) : ℚ :=
  if conversions = 0 then 0 else spend / conversions

/-- metrics.ts `calculateROAS`: conversion value / spend, zero-guarded. -/
def calculateROAS (conversionValue spend : ℚ) : ℚ :=
  if spend = 0 then 0 else conversionValue / spend

/-- metrics.ts `RawMetrics`: every field optional, number or string. -/
structure RawMetrics where
  cost_micros : JSVal
  impressions : JSVal
  clicks : JSVal
  conversions : JSVal
  conversions_value : JSVal
  all_conversions : JSVal
  all_conversions_value : JSVal
  deriving DecidableEq

/-- The empty object `{}` as a RawMetrics: every field undefined. -/
def emptyRawMetrics : RawMetrics :=
  ⟨.undef, .undef, .undef, .undef, .undef, .undef, .undef⟩

/-- metrics.ts `NormalizedMetrics`. -/
structure NormalizedMetrics where
  spend : ℚ
  impressions : ℚ
  clicks : ℚ
  conversions : ℚ
  conversion_value : ℚ
  ctr : ℚ
  cpc : ℚ
  cpm : ℚ
  cpa : ℚ
  roas : ℚ
  deriving DecidableEq

/-- The all-zero NormalizedMetrics record. -/
def allZeroMetrics : NormalizedMetrics := ⟨0, 0, 0, 0, 0, 0, 0, 0, 0, 0⟩

/-- metrics.ts `normalizeMetrics`: base metrics with currency conversion,
then the five derived ratios with zero-guards. -/
def normalizeMetrics (raw : RawMetrics) : NormalizedMetrics :=
  let spend := microsToDecimal raw.cost_micros
  let impressions := toNumber raw.impressions
  let clicks := toNumber raw.clicks
  let conversions := toNumber raw.conversions
  let conversion_value := microsToDecimal raw.conversions_value
  let ctr := calculateCTR clicks impressions
  let cpc := calculateCPC spend clicks
  let cpm := calculateCPM spend impressions
  let cpa := calculateCPA spend conversions
  let roas := calculateROAS conversion_value spend
  ⟨spend, impressions, clicks, conversions, conversion_value, ctr, cpc, cpm, cpa, roas⟩

/-- JavaScript `Math.round`: round half up, i.e. toward positive infinity at
ties (`Math.round(-0.5)` is `-0`, `Math.round(0.5)` is `1`). -/
def jsRound (x : ℚ) : ℚ := ((⌊x + 1 / 2⌋ : ℤ) : ℚ)

/-- metrics.ts `roundMetric`: multiply by 10^decimals, `Math.round`, divide
back (the source defaults `decimals` to 2; callers here pass it). -/
def roundMetric (value : ℚ) (decimals : ℕ) : ℚ :=
  let multiplier : ℚ := (10 : ℚ) ^ decimals
  jsRound (value * multiplier) / multiplier

/-- metrics.ts `formatMetrics`: display copy of a NormalizedMetrics with the
precision policy (2 decimals, whole units for impressions/clicks, 4 decimals
for ctr). -/
def formatMetrics (metrics : NormalizedMetrics) : NormalizedMetrics :=
  ⟨roundMetric metrics.spend 2,
   jsRound metrics.impressions,
   jsRound metrics.clicks,
   roundMetric metrics.conversions 2,
   roundMetric metrics.conversion_value 2,
   roundMetric metrics.ctr 4,
   roundMetric metrics.cpc 2,
   roundMetric metrics.cpm 2,
   roundMetric metrics.cpa 2,
   roundMetric metrics.roas 2⟩

/-- field-mapper.ts `GoogleAdsRow.customer`. -/
structure Customer where
  id : Option String
  descriptive_name : Option String
  currency_code : Option String
  deriving DecidableEq

/-- field-mapper.ts `GoogleAdsRow.campaign`. -/
structure Campaign where
  id : Option String
  name : Option String
  deriving DecidableEq

/-- field-mapper.ts `GoogleAdsRow.ad_group_ad.ad`. -/
structure Ad where
  id : Option String
  name : Option String
  deriving DecidableEq

/-- field-mapper.ts `GoogleAdsRow.ad_group_ad`. -/
structure AdGroupAd where
  ad : Option Ad
  deriving DecidableEq

/-- field-mapper.ts `GoogleAdsRow.segments`. -/
structure Segments where
  date : Option String
  deriving DecidableEq

/-- field-mapper.ts `GoogleAdsRow`: every nested object optional. -/
structure GoogleAdsRow where
  customer : Option Customer
  campaign : Option Campaign
  ad_group_ad : Option AdGroupAd
  segments : Option Segments
  metrics : Option RawMetrics
  deriving DecidableEq

/-- A row missing all nested objects. -/
def emptyGoogleAdsRow : GoogleAdsRow := ⟨none, none, none, none, none⟩

/-- field-mapper.ts `StandardizedRow`.  Fields whose JavaScript value ranges
over `string | null` are `Option String` with `none` = null.  In the source,
`account_name` has TypeScript type `string` (never null); it is given the
same `Option String` value domain here so that claims about null defaults
can be stated, and the mapper always produces `some` for it. -/
structure StandardizedRow where
  platform : String
  account_id : String
  account_name : Option String
  date : Option String
  campaign_id : Option String
  campaign_name : Option String
  adset_id : Option String
  adset_name : Option String
  ad_id : Option String
  ad_name : Option String
  spend : ℚ
  impressions : ℚ
  clicks : ℚ
  conversions : ℚ
  conversion_value : ℚ
  currency : String
  ctr : ℚ
  cpc : ℚ
  cpm : ℚ
  cpa : ℚ
  roas : ℚ
  attribution_model : Option String
  attribution_window : Option String
  deriving DecidableEq

/-- JavaScript `x || d` for a `string | undefined` value `x` and string
default `d`: the empty string is falsy, so it also falls back to `d`. -/
def jsStrOrElse (x : Option String) (d : String) : String :=
  match x with
  | some s => if s = "" then d else s
  | none => d

/-- JavaScript `x || null` for a `string | undefined` value `x`: the empty
string is falsy, so it becomes null too. -/
def jsStrOrNull (x : Option String) : Option String :=
  match x with
  | some s => if s = "" then none else some s
  | none => none

/-- field-mapper.ts `mapToStandardizedRow` (the source defaults
`defaultCurrency` to "USD"; callers here pass it).  `id?.toString()` on a
string id is the identity, so it is dropped in the model. -/
def mapToStandardizedRow (row : GoogleAdsRow) (defaultCurrency : String) :
    StandardizedRow :=
  let accountId := jsStrOrElse (row.customer.bind fun c => c.id) ""
  let accountName := jsStrOrElse (row.customer.bind fun c => c.descriptive_name) ""
  let currency := jsStrOrElse (row.customer.bind fun c => c.currency_code) defaultCurrency
  let date := jsStrOrNull (row.segments.bind fun s => s.date)
  let campaignId := jsStrOrNull (row.campaign.bind fun c => c.id)
  let campaignName := jsStrOrNull (row.campaign.bind fun c => c.name)
  let adId := jsStrOrNull ((row.ad_group_ad.bind fun g => g.ad).bind fun a => a.id)
  let adName := jsStrOrNull ((row.ad_group_ad.bind fun g => g.ad).bind fun a => a.name)
  let rawMetrics := row.metrics.getD emptyRawMetrics
  let normalized := normalizeMetrics rawMetrics
  let formatted := formatMetrics normalized
  ⟨"google_ads",
   accountId,
   some accountName,
   date,
   campaignId,
   campaignName,
   none,
   none,
   adId,
   adName,
   formatted.spend,
   formatted.impressions,
   formatted.clicks,
   formatted.conversions,
   formatted.conversion_value,
   currency,
   formatted.ctr,
   formatted.cpc,
   formatted.cpm,
   formatted.cpa,
   formatted.roas,
   none,
   none⟩

/-- field-mapper.ts `mapRowsToStandardized`: element-wise, order preserving. -/
def mapRowsToStandardized (rows : List GoogleAdsRow) (defaultCurrency : String) :
    List StandardizedRow :=
  rows.map fun row => mapToStandardizedRow row defaultCurrency

/-- field-mapper.ts `buildGAQLFields`.  The source switches on the level
string; the default branch mirrors the source's `default` case. -/
def buildGAQLFields (level : String) : List String :=
  let baseFields := ["customer.id", "customer.descriptive_name", "customer.currency_code"]
  let metricFields := ["metrics.cost_micros", "metrics.impressions", "metrics.clicks",
    "metrics.conversions", "metrics.conversions_value"]
  if level = "ACCOUNT" then baseFields ++ metricFields
  else if level = "CAMPAIGN" then
    baseFields ++ ["campaign.id", "campaign.name"] ++ metricFields
  else if level = "AD" then
    baseFields ++ ["campaign.id", "campaign.name", "ad_group_ad.ad.id", "ad_group_ad.ad.name"]
      ++ metricFields
  else baseFields ++ metricFields

/-- field-mapper.ts `buildGAQLResource`: the default branch returns
"customer". -/
def buildGAQLResource (level : String) : String :=
  if level = "ACCOUNT" then "customer"
  else if level = "CAMPAIGN" then "campaign"
  else if level = "AD" then "ad_group_ad"
  else "customer"

/-- Rounding as claim C5 words it (spec side, for comparison with the
source's `roundMetric`): `round(value * 10^decimals) / 10^decimals` where
ties are rounded half AWAY FROM ZERO. -/
def specRoundHalfAwayFromZero (value : ℚ) (decimals : ℕ) : ℚ :=
  let multiplier : ℚ := (10 : ℚ) ^ decimals
  let x := value * multiplier
  (if 0 ≤ x then ((⌊x + 1 / 2⌋ : ℤ) : ℚ) else -((⌊-x + 1 / 2⌋ : ℤ) : ℚ)) / multiplier

/-- Evaluation rule for `jsRound` at a concrete value, via the floor
characterisation. -/
lemma jsRound_eq_of (x : ℚ) (n : ℤ) (h1 : (n : ℚ) ≤ x + 1 / 2) (h2 : x + 1 / 2 < (n : ℚ) + 1) :
    jsRound x = (n : ℚ) := by
  unfold jsRound
  have h : ⌊x + 1 / 2⌋ = n := Int.floor_eq_iff.mpr ⟨h1, by exact_mod_cast h2⟩
  rw [h]

/-- Math.round of 0 is 0. -/
lemma jsRound_zero : jsRound 0 = 0 := by
  simpa using jsRound_eq_of 0 0 (by norm_num) (by norm_num)

/-- Normalizing the empty raw-metrics object yields the all-zero record. -/
lemma normalizeMetrics_empty : normalizeMetrics emptyRawMetrics = allZeroMetrics := by
  norm_num [normalizeMetrics, emptyRawMetrics, microsToDecimal, toNumber, calculateCTR,
    calculateCPC, calculateCPM, calculateCPA, calculateROAS, allZeroMetrics]

/-- Formatting the all-zero record yields the all-zero record. -/
lemma formatMetrics_allZero : formatMetrics allZeroMetrics = allZeroMetrics := by
  norm_num [formatMetrics, allZeroMetrics, roundMetric, jsRound_zero]

/-- Normalize-then-format of the empty raw-metrics object is all zero. -/
lemma formatMetrics_empty : formatMetrics (normalizeMetrics emptyRawMetrics) = allZeroMetrics := by
  rw [normalizeMetrics_empty, formatMetrics_allZero]

/-- The ACCOUNT-level field list, evaluated. -/
lemma buildGAQLFields_ACCOUNT_eq : buildGAQLFields "ACCOUNT" =
    ["customer.id", "customer.descriptive_name", "customer.currency_code",
     "metrics.cost_micros", "metrics.impressions", "metrics.clicks",
     "metrics.conversions", "metrics.conversions_value"] := by decide

/-- The CAMPAIGN-level field list, evaluated. -/
lemma buildGAQLFields_CAMPAIGN_eq : buildGAQLFields "CAMPAIGN" =
    ["customer.id", "customer.descriptive_name", "customer.currency_code",
     "campaign.id", "campaign.name",
     "metrics.cost_micros", "metrics.impressions", "metrics.clicks",
     "metrics.conversions", "metrics.conversions_value"] := by decide

/-- C1: for each of the five derived-ratio operations (calculateCTR with
divisor impressions, calculateCPC with divisor clicks, calculateCPM with
divisor impressions, calculateCPA with divisor conversions, calculateROAS
with divisor spend), for every numerator, a divisor of exactly 0 gives 0,
and a non-zero divisor gives the stated quotient. -/
theorem C1_zero_guard_ratios :
    (∀ x : ℚ, calculateCTR x 0 = 0) ∧
    (∀ x y : ℚ, y ≠ 0 → calculateCTR x y = x / y) ∧
    (∀ x : ℚ, calculateCPC x 0 = 0) ∧
    (∀ x y : ℚ, y ≠ 0 → calculateCPC x y = x / y) ∧
    (∀ x : ℚ, calculateCPM x 0 = 0) ∧
    (∀ x y : ℚ, y ≠ 0 → calculateCPM x y = (x * 1000) / y) ∧
    (∀ x : ℚ, calculateCPA x 0 = 0) ∧
    (∀ x y : ℚ, y ≠ 0 → calculateCPA x y = x / y) ∧
    (∀ x : ℚ, calculateROAS x 0 = 0) ∧
    (∀ x y : ℚ, y ≠ 0 → calculateROAS x y = x / y) := by
  refine ⟨fun x => ?_, fun x y h => ?_, fun x => ?_, fun x y h => ?_, fun x => ?_,
    fun x y h => ?_, fun x => ?_, fun x y h => ?_, fun x => ?_, fun x y h => ?_⟩ <;>
    simp [calculateCTR, calculateCPC, calculateCPM, calculateCPA, calculateROAS, *]

/-- Witness for C1 at concrete numerators and divisors. -/
theorem C1_zero_guard_ratios_witness :
    calculateCTR 7 0 = 0 ∧ calculateCTR 3 4 = 3 / 4 ∧ calculateCPC 7 0 = 0 ∧
    calculateCPC 8 2 = 8 / 2 ∧ calculateCPM 7 0 = 0 ∧ calculateCPM 2 5 = (2 * 1000) / 5 ∧
    calculateCPA 7 0 = 0 ∧ calculateCPA 9 3 = 9 / 3 ∧ calculateROAS 7 0 = 0 ∧
    calculateROAS 6 2 = 6 / 2 :=
  ⟨C1_zero_guard_ratios.1 7,
   C1_zero_guard_ratios.2.1 3 4 (by norm_num),
   C1_zero_guard_ratios.2.2.1 7,
   C1_zero_guard_ratios.2.2.2.1 8 2 (by norm_num),
   C1_zero_guard_ratios.2.2.2.2.1 7,
   C1_zero_guard_ratios.2.2.2.2.2.1 2 5 (by norm_num),
   C1_zero_guard_ratios.2.2.2.2.2.2.1 7,
   C1_zero_guard_ratios.2.2.2.2.2.2.2.1 9 3 (by norm_num),
   C1_zero_guard_ratios.2.2.2.2.2.2.2.2.1 7,
   C1_zero_guard_ratios.2.2.2.2.2.2.2.2.2 6 2 (by norm_num)⟩

/-- C2: normalizeMetrics is total (it is a Lean function into
NormalizedMetrics, so it always returns a complete record and never
raises); on the empty object, and on an input whose every field is a
non-numeric string (one whose parse is NaN), all ten output fields are 0. -/
theorem C2_normalizeMetrics_total :
    normalizeMetrics emptyRawMetrics = allZeroMetrics ∧
    (∀ s1 s2 s3 s4 s5 s6 s7 : String,
      parseIntJS s1 = none → parseFloatJS s2 = none → parseFloatJS s3 = none →
      parseFloatJS s4 = none → parseIntJS s5 = none →
      normalizeMetrics ⟨.str s1, .str s2, .str s3, .str s4, .str s5, .str s6, .str s7⟩ =
        allZeroMetrics) := by
  refine ⟨normalizeMetrics_empty, ?_⟩
  intro s1 s2 s3 s4 s5 s6 s7 h1 h2 h3 h4 h5
  norm_num [normalizeMetrics, microsToDecimal, toNumber, calculateCTR, calculateCPC,
    calculateCPM, calculateCPA, calculateROAS, allZeroMetrics, h1, h2, h3, h4, h5]

/-- Witness for C2 at the spec's concrete malformed strings. -/
theorem C2_normalizeMetrics_total_witness :
    normalizeMetrics ⟨.str "invalid", .str "bad", .str "bad", .str "bad", .str "invalid",
      .str "bad", .str "bad"⟩ = allZeroMetrics :=
  C2_normalizeMetrics_total.2 "invalid" "bad" "bad" "bad" "invalid" "bad" "bad"
    (by decide) (by decide) (by decide) (by decide) (by decide)

/-- C3: normalizeMetrics on cost_micros=100000000, impressions=10000,
clicks=500, conversions=10, conversions_value=500000000 returns exactly
spend=100, impressions=10000, clicks=500, conversions=10,
conversion_value=500, ctr=0.05, cpc=0.2, cpm=10, cpa=10, roas=5. -/
theorem C3_formula_correctness :
    normalizeMetrics ⟨.num 100000000, .num 10000, .num 500, .num 10, .num 500000000,
      .undef, .undef⟩ = ⟨100, 10000, 500, 10, 500, 1 / 20, 1 / 5, 10, 10, 5⟩ := by
  norm_num [normalizeMetrics, microsToDecimal, toNumber, calculateCTR, calculateCPC,
    calculateCPM, calculateCPA, calculateROAS]

/-- C4: microsToDecimal divides every numeric input (negative included, no
clamping) by 1,000,000, maps null and undefined to 0, parses strings as
integers with NaN mapping to 0, and satisfies the spec's five concrete
examples. -/
theorem C4_microsToDecimal_policy :
    (∀ q : ℚ, microsToDecimal (.num q) = q / 1000000) ∧
    microsToDecimal .nullv = 0 ∧
    microsToDecimal .undef = 0 ∧
    (∀ s : String, parseIntJS s = none → microsToDecimal (.str s) = 0) ∧
    (∀ (s : String) (n : ℤ), parseIntJS s = some n →
      microsToDecimal (.str s) = (n : ℚ) / 1000000) ∧
    microsToDecimal (.num 1000000) = 1 ∧
    microsToDecimal (.num 5500000) = 11 / 2 ∧
    microsToDecimal (.num 0) = 0 ∧
    microsToDecimal (.str "1000000") = 1 := by
  have hp : parseIntJS "1000000" = some 1000000 := by decide
  refine ⟨fun q => rfl, rfl, rfl, fun s h => ?_, fun s n h => ?_, ?_, ?_, ?_, ?_⟩
  · simp [microsToDecimal, h]
  · simp [microsToDecimal, h]
  · norm_num [microsToDecimal]
  · norm_num [microsToDecimal]
  · norm_num [microsToDecimal]
  · norm_num [microsToDecimal, hp]

/-- Witness for C4 at a non-numeric and a numeric string. -/
theorem C4_microsToDecimal_policy_witness :
    microsToDecimal (.str "abc") = 0 ∧ microsToDecimal (.str "250") = (250 : ℚ) / 1000000 :=
  ⟨C4_microsToDecimal_policy.2.2.2.1 "abc" (by decide),
   C4_microsToDecimal_policy.2.2.2.2.1 "250" 250 (by decide)⟩

/-- C5 counterexample: the claim says ties round half away from zero for
every value including negatives, but at value -0.005 with 2 decimals the
source's roundMetric (JavaScript Math.round, half up) returns 0 while
half-away-from-zero returns -0.01. -/
theorem C5_counterexample :
    roundMetric (-(1 / 200)) 2 = 0 ∧
    specRoundHalfAwayFromZero (-(1 / 200)) 2 = -(1 / 100) ∧
    roundMetric (-(1 / 200)) 2 ≠ specRoundHalfAwayFromZero (-(1 / 200)) 2 := by
  have hr : roundMetric (-(1 / 200)) 2 = 0 := by
    unfold roundMetric
    norm_num
    rw [jsRound_eq_of (-(1 / 2)) 0 (by norm_num) (by norm_num)]
    norm_num
  have hs : specRoundHalfAwayFromZero (-(1 / 200)) 2 = -(1 / 100) := by
    unfold specRoundHalfAwayFromZero
    norm_num
  exact ⟨hr, hs, by rw [hr, hs]; norm_num⟩

/-- C5 (amended): roundMetric(value, decimals) equals
round(value * 10^decimals) / 10^decimals where round is JavaScript
Math.round, rounding ties half UP (toward positive infinity); this agrees
with half-away-from-zero for every nonnegative value, and the spec's
examples 1.23456 to two decimals = 1.23, 0.005 to two decimals = 0.01,
0.004 to two decimals = 0 hold. -/
theorem C5_roundMetric_half_up :
    (∀ (v : ℚ) (d : ℕ), roundMetric v d = ((⌊v * 10 ^ d + 1 / 2⌋ : ℤ) : ℚ) / 10 ^ d) ∧
    (∀ (v : ℚ) (d : ℕ), 0 ≤ v → roundMetric v d = specRoundHalfAwayFromZero v d) ∧
    roundMetric (123456 / 100000) 2 = 123 / 100 ∧
    roundMetric (1 / 200) 2 = 1 / 100 ∧
    roundMetric (1 / 250) 2 = 0 := by
  refine ⟨fun v d => rfl, fun v d hv => ?_, ?_, ?_, ?_⟩
  · unfold roundMetric specRoundHalfAwayFromZero
    dsimp only
    rw [if_pos (mul_nonneg hv (by positivity : (0:ℚ) ≤ 10 ^ d))]
    rfl
  · unfold roundMetric
    norm_num
    rw [jsRound_eq_of (15432 / 125) 123 (by norm_num) (by norm_num)]
    norm_num
  · unfold roundMetric
    norm_num
    rw [jsRound_eq_of (1 / 2) 1 (by norm_num) (by norm_num)]
    norm_num
  · unfold roundMetric
    norm_num
    rw [jsRound_eq_of (2 / 5) 0 (by norm_num) (by norm_num)]
    norm_num

/-- Witness for C5 (amended) at a nonnegative tie. -/
theorem C5_roundMetric_half_up_witness :
    roundMetric (3 / 2) 0 = specRoundHalfAwayFromZero (3 / 2) 0 :=
  C5_roundMetric_half_up.2.1 (3 / 2) 0 (by norm_num)

/-- C6 counterexample: the claim says account_name defaults to null when
its source is absent, but on the row missing all nested objects the mapper
produces the empty string (the source's `|| ''` fallback; the TypeScript
type of account_name is `string`, never null). -/
theorem C6_counterexample :
    (mapToStandardizedRow emptyGoogleAdsRow "USD").account_name = some "" ∧
    (mapToStandardizedRow emptyGoogleAdsRow "USD").account_name ≠ none := by
  refine ⟨rfl, ?_⟩
  rw [show (mapToStandardizedRow emptyGoogleAdsRow "USD").account_name = some "" from rfl]
  simp

/-- C6 (amended): mapToStandardizedRow is total on partial input (a Lean
function, it never throws); account_id defaults to the empty string,
account_name ALSO defaults to the empty string (not null), campaign_id,
campaign_name, ad_id, ad_name and date default to null when their source
object is absent, currency falls back to the caller's default, and a row
missing all nested objects produces all-zero metric fields. -/
theorem C6_mapper_defaults :
    (∀ (row : GoogleAdsRow) (c : String), row.customer = none →
      (mapToStandardizedRow row c).account_id = "" ∧
      (mapToStandardizedRow row c).account_name = some "" ∧
      (mapToStandardizedRow row c).currency = c) ∧
    (∀ (row : GoogleAdsRow) (c : String), row.campaign = none →
      (mapToStandardizedRow row c).campaign_id = none ∧
      (mapToStandardizedRow row c).campaign_name = none) ∧
    (∀ (row : GoogleAdsRow) (c : String), row.ad_group_ad = none →
      (mapToStandardizedRow row c).ad_id = none ∧
      (mapToStandardizedRow row c).ad_name = none) ∧
    (∀ (row : GoogleAdsRow) (c : String), row.segments = none →
      (mapToStandardizedRow row c).date = none) ∧
    (∀ (row : GoogleAdsRow) (c : String), row.metrics = none →
      (mapToStandardizedRow row c).spend = 0 ∧
      (mapToStandardizedRow row c).impressions = 0 ∧
      (mapToStandardizedRow row c).clicks = 0 ∧
      (mapToStandardizedRow row c).conversions = 0 ∧
      (mapToStandardizedRow row c).conversion_value = 0 ∧
      (mapToStandardizedRow row c).ctr = 0 ∧
      (mapToStandardizedRow row c).cpc = 0 ∧
      (mapToStandardizedRow row c).cpm = 0 ∧
      (mapToStandardizedRow row c).cpa = 0 ∧
      (mapToStandardizedRow row c).roas = 0) ∧
    mapToStandardizedRow emptyGoogleAdsRow "USD" =
      ⟨"google_ads", "", some "", none, none, none, none, none, none, none,
       0, 0, 0, 0, 0, "USD", 0, 0, 0, 0, 0, none, none⟩ := by
  refine ⟨?_, ?_, ?_, ?_, ?_, ?_⟩
  · intro row c h
    simp [mapToStandardizedRow, h, jsStrOrElse]
  · intro row c h
    simp [mapToStandardizedRow, h, jsStrOrNull]
  · intro row c h
    simp [mapToStandardizedRow, h, jsStrOrNull]
  · intro row c h
    simp [mapToStandardizedRow, h, jsStrOrNull]
  · intro row c h
    simp [mapToStandardizedRow, h, formatMetrics_empty, allZeroMetrics]
  · simp [mapToStandardizedRow, emptyGoogleAdsRow, formatMetrics_empty, allZeroMetrics,
      jsStrOrElse, jsStrOrNull]

/-- Witness for C6 (amended) at the row missing all nested objects. -/
theorem C6_mapper_defaults_witness :
    (mapToStandardizedRow emptyGoogleAdsRow "EUR").account_id = "" ∧
    (mapToStandardizedRow emptyGoogleAdsRow "EUR").account_name = some "" ∧
    (mapToStandardizedRow emptyGoogleAdsRow "EUR").currency = "EUR" :=
  C6_mapper_defaults.1 emptyGoogleAdsRow "EUR" rfl

/-- C7: for every row and default currency, the ten metric fields of the
StandardizedRow equal those of formatMetrics (normalizeMetrics m) where m
is the row's metrics object (the empty object when absent); and
formatMetrics applies the precision policy: spend, conversions,
conversion_value, cpc, cpm, cpa, roas to 2 decimals, impressions and
clicks to the nearest whole unit, ctr to 4 decimals. -/
theorem C7_row_carries_formatted_metrics :
    (∀ (row : GoogleAdsRow) (c : String),
      (mapToStandardizedRow row c).spend =
        (formatMetrics (normalizeMetrics (row.metrics.getD emptyRawMetrics))).spend ∧
      (mapToStandardizedRow row c).impressions =
        (formatMetrics (normalizeMetrics (row.metrics.getD emptyRawMetrics))).impressions ∧
      (mapToStandardizedRow row c).clicks =
        (formatMetrics (normalizeMetrics (row.metrics.getD emptyRawMetrics))).clicks ∧
      (mapToStandardizedRow row c).conversions =
        (formatMetrics (normalizeMetrics (row.metrics.getD emptyRawMetrics))).conversions ∧
      (mapToStandardizedRow row c).conversion_value =
        (formatMetrics (normalizeMetrics (row.metrics.getD emptyRawMetrics))).conversion_value ∧
      (mapToStandardizedRow row c).ctr =
        (formatMetrics (normalizeMetrics (row.metrics.getD emptyRawMetrics))).ctr ∧
      (mapToStandardizedRow row c).cpc =
        (formatMetrics (normalizeMetrics (row.metrics.getD emptyRawMetrics))).cpc ∧
      (mapToStandardizedRow row c).cpm =
        (formatMetrics (normalizeMetrics (row.metrics.getD emptyRawMetrics))).cpm ∧
      (mapToStandardizedRow row c).cpa =
        (formatMetrics (normalizeMetrics (row.metrics.getD emptyRawMetrics))).cpa ∧
      (mapToStandardizedRow row c).roas =
        (formatMetrics (normalizeMetrics (row.metrics.getD emptyRawMetrics))).roas) ∧
    (∀ m : NormalizedMetrics,
      formatMetrics m = ⟨roundMetric m.spend 2, jsRound m.impressions, jsRound m.clicks,
        roundMetric m.conversions 2, roundMetric m.conversion_value 2, roundMetric m.ctr 4,
        roundMetric m.cpc 2, roundMetric m.cpm 2, roundMetric m.cpa 2,
        roundMetric m.roas 2⟩) :=
  ⟨fun _ _ => ⟨rfl, rfl, rfl, rfl, rfl, rfl, rfl, rfl, rfl, rfl⟩, fun _ => rfl⟩

/-- C8: the GAQL field lists form a superset chain ACCOUNT ⊆ CAMPAIGN ⊆ AD;
the five metric fields appear in all three lists; campaign-identity fields
appear exactly at CAMPAIGN and AD; ad-identity fields appear only at AD. -/
theorem C8_field_superset_chain :
    (∀ f : String, f ∈ buildGAQLFields "ACCOUNT" → f ∈ buildGAQLFields "CAMPAIGN") ∧
    (∀ f : String, f ∈ buildGAQLFields "CAMPAIGN" → f ∈ buildGAQLFields "AD") ∧
    (∀ f : String, f ∈ ["metrics.cost_micros", "metrics.impressions", "metrics.clicks",
        "metrics.conversions", "metrics.conversions_value"] →
      f ∈ buildGAQLFields "ACCOUNT" ∧ f ∈ buildGAQLFields "CAMPAIGN" ∧
        f ∈ buildGAQLFields "AD") ∧
    (∀ f : String, f ∈ ["campaign.id", "campaign.name"] →
      f ∉ buildGAQLFields "ACCOUNT" ∧ f ∈ buildGAQLFields "CAMPAIGN" ∧
        f ∈ buildGAQLFields "AD") ∧
    (∀ f : String, f ∈ ["ad_group_ad.ad.id", "ad_group_ad.ad.name"] →
      f ∉ buildGAQLFields "ACCOUNT" ∧ f ∉ buildGAQLFields "CAMPAIGN" ∧
        f ∈ buildGAQLFields "AD") := by
  refine ⟨?_, ?_, ?_, ?_, ?_⟩
  · intro f hf
    rw [buildGAQLFields_ACCOUNT_eq] at hf
    fin_cases hf <;> decide
  · intro f hf
    rw [buildGAQLFields_CAMPAIGN_eq] at hf
    fin_cases hf <;> decide
  · intro f hf
    fin_cases hf <;> exact ⟨by decide, by decide, by decide⟩
  · intro f hf
    fin_cases hf <;> exact ⟨by decide, by decide, by decide⟩
  · intro f hf
    fin_cases hf <;> exact ⟨by decide, by decide, by decide⟩

/-- Witness for C8 at concrete fields. -/
theorem C8_field_superset_chain_witness :
    "customer.id" ∈ buildGAQLFields "CAMPAIGN" ∧ "campaign.id" ∈ buildGAQLFields "AD" :=
  ⟨C8_field_superset_chain.1 "customer.id" (by decide),
   C8_field_superset_chain.2.1 "campaign.id" (by decide)⟩

/-- C9: buildGAQLResource maps ACCOUNT to "customer", CAMPAIGN to
"campaign", AD to "ad_group_ad", and every other level string to
"customer" (defensive default, no error). -/
theorem C9_resource_mapping :
    buildGAQLResource "ACCOUNT" = "customer" ∧
    buildGAQLResource "CAMPAIGN" = "campaign" ∧
    buildGAQLResource "AD" = "ad_group_ad" ∧
    (∀ level : String, level ≠ "ACCOUNT" → level ≠ "CAMPAIGN" → level ≠ "AD" →
      buildGAQLResource level = "customer") := by
  refine ⟨by decide, by decide, by decide, ?_⟩
  intro level h1 h2 h3
  simp [buildGAQLResource, h1, h2, h3]

/-- Witness for C9 at an unrecognized level string. -/
theorem C9_resource_mapping_witness : buildGAQLResource "AD_GROUP" = "customer" :=
  C9_resource_mapping.2.2.2 "AD_GROUP" (by decide) (by decide) (by decide)

/-- C10: normalizeMetrics does not depend on all_conversions or
all_conversions_value: two inputs agreeing on the five read fields yield
identical outputs. -/
theorem C10_ignores_all_conversions :
    ∀ r1 r2 : RawMetrics, r1.cost_micros = r2.cost_micros → r1.impressions = r2.impressions →
      r1.clicks = r2.clicks → r1.conversions = r2.conversions →
      r1.conversions_value = r2.conversions_value →
      normalizeMetrics r1 = normalizeMetrics r2 := by
  intro r1 r2 h1 h2 h3 h4 h5
  simp only [normalizeMetrics, h1, h2, h3, h4, h5]

/-- Witness for C10 at two inputs differing only in the all_conversions
pair. -/
theorem C10_ignores_all_conversions_witness :
    normalizeMetrics ⟨.num 1, .num 2, .num 3, .num 4, .num 5, .num 6, .num 7⟩ =
      normalizeMetrics ⟨.num 1, .num 2, .num 3, .num 4, .num 5, .str "x", .undef⟩ :=
  C10_ignores_all_conversions _ _ rfl rfl rfl rfl rfl
